import Mathlib

/-!
Shallow embedding of libxyzimage (src/src/xyzimage.c, current revision) in Lean 4.

The XYZ container codec reads and writes a small binary format:
4-byte magic "XYZ1", little-endian uint16 width and height, then a
DEFLATE-compressed payload of 768 palette bytes followed by width*height
pixel-index bytes.  The C code is parametric in a byte source
(xyzimage_read_func_t), a byte sink (xyzimage_write_func_t) and a
compression adapter (xyzimage_compress_func_t); the embedding keeps all
three as explicit function parameters.  zlib itself (compressBound,
compress2, uncompress) is external third-party code and is modelled as an
abstract record of functions.  Machine bytes are Nat values below 256;
uint16 arithmetic is Nat arithmetic with explicit % 256 and % 65536 where
the C truncates.  malloc and realloc never fail in the model, so the
out-of-memory branches of the C code are unreachable here and elided.
-/

/-- Error enumeration of xyzimage.h (values of enum XYZImage_Error used by the
current revision of xyzimage.c). -/
inductive XYZImage_Error where
  | XYZIMAGE_ERROR_OK
  | XYZIMAGE_ERROR_IO_READ_GENERIC
  | XYZIMAGE_ERROR_IO_READ_BAD_HEADER
  | XYZIMAGE_ERROR_IO_READ_IMAGE_TOO_BIG
  | XYZIMAGE_ERROR_IO_READ_IMAGE_TOO_SMALL
  | XYZIMAGE_ERROR_IO_READ_END_OF_FILE
  | XYZIMAGE_ERROR_IO_WRITE
  | XYZIMAGE_ERROR_IO_COMPRESS
  | XYZIMAGE_ERROR_XYZIMAGE_INVALID
  | XYZIMAGE_ERROR_BUFFER_TOO_SMALL
  | XYZIMAGE_ERROR_IMAGE_TOO_MANY_COLORS
  | XYZIMAGE_ERROR_IMAGE_ALPHA_CHANNEL
  | XYZIMAGE_ERROR_IMAGE_NOT_INDEXED
  | XYZIMAGE_ERROR_POINTER_BAD
  | XYZIMAGE_ERROR_OUT_OF_MEMORY
  | XYZIMAGE_ERROR_ZLIB
  | XYZIMAGE_ERROR_NOT_IMPLEMENTED
  | XYZIMAGE_ERROR_FORMAT_NOT_SUPPORTED
deriving DecidableEq, Repr

/-- Pixel format enumeration of xyzimage.h (enum XYZImage_Format). -/
inductive XYZImage_Format where
  | XYZIMAGE_FORMAT_NONE
  | XYZIMAGE_FORMAT_DEFAULT
  | XYZIMAGE_FORMAT_RGBX
deriving DecidableEq, Repr

/-- XYZIMAGE_PALETTE_ENTRIES of xyzimage.h. -/
def XYZIMAGE_PALETTE_ENTRIES : Nat := 256

/-- XYZIMAGE_PALETTE_SIZE of xyzimage.h (palette bytes). -/
def XYZIMAGE_PALETTE_SIZE : Nat := XYZIMAGE_PALETTE_ENTRIES * 3

/-- XYZPRIV_HEADER_SIZE of xyzimage.c (magic + width + height on the wire). -/
def XYZPRIV_HEADER_SIZE : Nat := 8

/-- The wire magic "XYZ1" as bytes. -/
def XYZ1_MAGIC : List Nat := [88, 89, 90, 49]

/-- The struct validity marker "LXYZ" stamped by xyzpriv_alloc. -/
def LXYZ_MAGIC : List Nat := [76, 88, 89, 90]

/-- Abstract model of the linked zlib library: compressBound, compress2 (at
Z_BEST_COMPRESSION, returning none on failure) and uncompress (given source
bytes and the destination capacity, returning the decompressed bytes on Z_OK
and none on any zlib error, including when the output does not fit). -/
structure Zlib where
  compressBound : Nat → Nat
  compress2 : List Nat → Option (List Nat)
  uncompress : List Nat → Nat → Option (List Nat)

/-- Model of xyzimage_compress_func_t: the input buffer and the output
capacity are given; the result is either the bytes written to the output
buffer, or the error code the function stored through its error pointer
(in the error case the C contract requires a 0 return and no usable
output). -/
def CompressFunc : Type := List Nat → Nat → Except XYZImage_Error (List Nat)

/-- xyzpriv_compress_func of xyzimage.c: compute the zlib upper bound for the
compressed size; when the bound exceeds the output capacity fail with
XYZIMAGE_ERROR_BUFFER_TOO_SMALL before compressing; otherwise run compress2
into a scratch buffer and copy the compressed bytes out. -/
def xyzpriv_compress_func (zlib : Zlib) : CompressFunc := fun buffer_in len_out =>
  let comp_size := zlib.compressBound buffer_in.length
  if comp_size > len_out then
    .error .XYZIMAGE_ERROR_BUFFER_TOO_SMALL
  else
    match zlib.compress2 buffer_in with
    | none => .error .XYZIMAGE_ERROR_IO_COMPRESS
    | some buffer_out => .ok buffer_out

/-- struct XYZImage of xyzimage.c.  data holds the pixel-index bytes. -/
structure XYZImage where
  header : List Nat
  version : Nat
  width : Nat
  height : Nat
  format : XYZImage_Format
  palette : List (Nat × Nat × Nat)
  data_len : Nat
  data_len_compressed : Nat
  data : List Nat
  compress_func : CompressFunc

/-- The marker and version test applied by xyzimage_is_valid to a non-null
pointer: the struct header bytes spell "LXYZ" and the version is 1. -/
def imgValid (image : XYZImage) : Bool :=
  image.header == LXYZ_MAGIC && image.version == 1

/-- xyzimage_is_valid of xyzimage.c: a null pointer (none) is invalid,
otherwise the marker and version are checked. -/
def xyzimage_is_valid : Option XYZImage → Bool
  | none => false
  | some image => imgValid image

/-- xyzpriv_swap_when_big of xyzimage.c: on a big-endian host the two bytes
of the uint16 are exchanged ((us >> 8) | (us << 8) in uint16 arithmetic);
on a little-endian host the value is returned unchanged.  The host
endianness test (the union trick on 0x01020304) is the isBig parameter. -/
def xyzpriv_swap_when_big (isBig : Bool) (us : Nat) : Nat :=
  if isBig then us % 65536 / 256 + us % 256 * 256 else us

/-- The two bytes a uint16 occupies in host memory: high byte first on a
big-endian host, low byte first on a little-endian host.  Models reading
the raw bytes of the C variable that read_func and write_func see. -/
def u16ToHostBytes (isBig : Bool) (us : Nat) : List Nat :=
  if isBig then [us % 65536 / 256, us % 256] else [us % 256, us % 65536 / 256]

/-- The uint16 value formed when two raw bytes are stored into host memory:
the inverse view of u16ToHostBytes. -/
def u16FromHostBytes (isBig : Bool) (bs : List Nat) : Nat :=
  if isBig then bs.getD 0 0 % 256 * 256 + bs.getD 1 0 % 256
  else bs.getD 0 0 % 256 + bs.getD 1 0 % 256 * 256

/-- The palette-filling loop of xyzimage_write: for i in [0, fuel) emit
entry[i].red, entry[i].green, entry[i].blue.  Called with fuel =
XYZIMAGE_PALETTE_ENTRIES; the C array always holds 256 entries, the list
model reads a zero entry past the end of a short list. -/
def paletteToBytes : Nat → List (Nat × Nat × Nat) → List Nat
  | 0, _ => []
  | n + 1, p =>
    (p.headD (0, 0, 0)).1 :: (p.headD (0, 0, 0)).2.1 :: (p.headD (0, 0, 0)).2.2 ::
      paletteToBytes n p.tail

/-- The palette-filling loop of xyzimage_open: for i in [0, fuel) read bytes
3i, 3i+1, 3i+2 of the decompressed buffer as entry i.  Called with fuel =
XYZIMAGE_PALETTE_ENTRIES. -/
def paletteFromBytes : Nat → List Nat → List (Nat × Nat × Nat)
  | 0, _ => []
  | n + 1, bs => (bs.getD 0 0, bs.getD 1 0, bs.getD 2 0) :: paletteFromBytes n (bs.drop 3)

/-- xyzimage_alloc of xyzimage.c: only XYZIMAGE_FORMAT_DEFAULT (multiplier 1)
is supported; the struct is stamped with the "LXYZ" marker and version 1,
the palette is zero-filled (memset) and the pixel buffer of width*height
bytes is zero-filled (calloc). -/
def xyzimage_alloc (zlib : Zlib) (width height : Nat) (format : XYZImage_Format) :
    Option XYZImage × XYZImage_Error :=
  match format with
  | .XYZIMAGE_FORMAT_DEFAULT =>
    (some { header := LXYZ_MAGIC
            version := 1
            width := width
            height := height
            format := .XYZIMAGE_FORMAT_DEFAULT
            palette := List.replicate XYZIMAGE_PALETTE_ENTRIES (0, 0, 0)
            data_len := width * height
            data_len_compressed := 0
            data := List.replicate (width * height) 0
            compress_func := xyzpriv_compress_func zlib },
     .XYZIMAGE_ERROR_OK)
  | _ => (none, .XYZIMAGE_ERROR_FORMAT_NOT_SUPPORTED)

/-- xyzimage_free of xyzimage.c: an invalid handle is rejected with return 0;
otherwise header[0] is overwritten with the byte of the exclamation mark to
corrupt the marker, the pixel buffer is released (data := NULL, data_len := 0)
and 1 is returned.  The returned handle models the stale pointer a caller
may still hold. -/
def xyzimage_free : Option XYZImage → Option XYZImage × Nat
  | none => (none, 0)
  | some image =>
    if imgValid image = false then (some image, 0)
    else (some { image with header := image.header.set 0 33, data := [], data_len := 0 }, 1)

/-- xyzimage_get_width of xyzimage.c. -/
def xyzimage_get_width : Option XYZImage → Nat
  | none => 0
  | some image => if imgValid image = false then 0 else image.width

/-- xyzimage_get_height of xyzimage.c. -/
def xyzimage_get_height : Option XYZImage → Nat
  | none => 0
  | some image => if imgValid image = false then 0 else image.height

/-- xyzimage_get_palette of xyzimage.c: NULL with XYZIMAGE_ERROR_XYZIMAGE_INVALID
for an invalid handle, NULL with XYZIMAGE_ERROR_IMAGE_NOT_INDEXED for a
non-indexed format, otherwise the palette with XYZIMAGE_ERROR_OK. -/
def xyzimage_get_palette : Option XYZImage → Option (List (Nat × Nat × Nat)) × XYZImage_Error
  | none => (none, .XYZIMAGE_ERROR_XYZIMAGE_INVALID)
  | some image =>
    if imgValid image = false then (none, .XYZIMAGE_ERROR_XYZIMAGE_INVALID)
    else if image.format ≠ .XYZIMAGE_FORMAT_DEFAULT then (none, .XYZIMAGE_ERROR_IMAGE_NOT_INDEXED)
    else (some image.palette, .XYZIMAGE_ERROR_OK)

/-- xyzimage_get_format of xyzimage.c. -/
def xyzimage_get_format : Option XYZImage → XYZImage_Format
  | none => .XYZIMAGE_FORMAT_NONE
  | some image => if imgValid image = false then .XYZIMAGE_FORMAT_NONE else image.format

/-- xyzimage_get_buffer of xyzimage.c: NULL for an invalid handle, otherwise
the pixel buffer together with its length (stored through the len pointer). -/
def xyzimage_get_buffer : Option XYZImage → Option (List Nat × Nat)
  | none => none
  | some image => if imgValid image = false then none else some (image.data, image.data_len)

/-- xyzimage_get_filesize of xyzimage.c: width * height + XYZPRIV_HEADER_SIZE +
XYZIMAGE_PALETTE_SIZE for a valid handle, 0 otherwise. -/
def xyzimage_get_filesize : Option XYZImage → Nat
  | none => 0
  | some image =>
    if imgValid image = false then 0
    else image.width * image.height + XYZPRIV_HEADER_SIZE + XYZIMAGE_PALETTE_SIZE

/-- xyzimage_get_compressed_filesize of xyzimage.c: data_len_compressed +
XYZPRIV_HEADER_SIZE for a valid handle, 0 otherwise. -/
def xyzimage_get_compressed_filesize : Option XYZImage → Nat
  | none => 0
  | some image =>
    if imgValid image = false then 0
    else image.data_len_compressed + XYZPRIV_HEADER_SIZE

/-- xyzimage_set_compress_func of xyzimage.c: no effect on an invalid handle;
a NULL function pointer (none) restores the built-in xyzpriv_compress_func,
a non-NULL pointer is installed as given. -/
def xyzimage_set_compress_func (zlib : Zlib) (h : Option XYZImage)
    (compress_func : Option CompressFunc) : Option XYZImage :=
  match h with
  | none => none
  | some image =>
    if imgValid image = false then some image
    else
      match compress_func with
      | none => some { image with compress_func := xyzpriv_compress_func zlib }
      | some f => some { image with compress_func := f }

/-- Model of xyzimage_read_func_t over a caller-chosen userdata state: given
the state and the requested byte count, return the new state, the bytes
placed into the buffer, and the error code stored through the error pointer
(XYZIMAGE_ERROR_OK when the function left it untouched). -/
def ReadFunc (σ : Type) : Type := σ → Nat → σ × List Nat × XYZImage_Error

/-- Outcome of the size-bounded compressed-payload read of xyzimage_open. -/
structure ReadCompressedResult (σ : Type) where
  state : σ
  buf : List Nat
  res : Nat
  err : XYZImage_Error
  capacity : Nat

/-- The compressed-payload read of xyzimage_open: read up to xyz_size bytes
into a buffer of capacity xyz_size; when the read ends with no error code
set (no end-of-stream), grow the buffer to 2 * xyz_size (realloc) and read
up to xyz_size further bytes.  capacity records the final allocated size of
the compressed buffer. -/
def readCompressed {σ : Type} (read_func : ReadFunc σ) (s : σ) (xyz_size : Nat) :
    ReadCompressedResult σ :=
  let (s1, c1, e1) := read_func s xyz_size
  if e1 = .XYZIMAGE_ERROR_OK then
    let (s2, c2, e2) := read_func s1 xyz_size
    { state := s2, buf := c1 ++ c2, res := c1.length + c2.length, err := e2,
      capacity := xyz_size * 2 }
  else
    { state := s1, buf := c1, res := c1.length, err := e1, capacity := xyz_size }

/-- xyzimage_open of xyzimage.c: validate the "XYZ1" magic, read width and
height (uint16, byte-swapped on big-endian hosts), allocate the handle,
read the compressed payload under the doubling cap, uncompress it into a
buffer of exactly 768 + width * height bytes, and split the result into
palette and pixel buffer. -/
def xyzimage_open {σ : Type} (zlib : Zlib) (read_func : ReadFunc σ) (userdata : σ)
    (isBig : Bool) : Option XYZImage × XYZImage_Error :=
  let (s1, xyz_header, e1) := read_func userdata 4
  if xyz_header.length ≠ 4 ∨ e1 ≠ .XYZIMAGE_ERROR_OK then (none, e1)
  else if xyz_header ≠ XYZ1_MAGIC then (none, .XYZIMAGE_ERROR_IO_READ_BAD_HEADER)
  else
    let (s2, wbytes, e2) := read_func s1 2
    if wbytes.length ≠ 2 ∨ e2 ≠ .XYZIMAGE_ERROR_OK then (none, e2)
    else
      let width := xyzpriv_swap_when_big isBig (u16FromHostBytes isBig wbytes)
      let (s3, hbytes, e3) := read_func s2 2
      if hbytes.length ≠ 2 ∨ e3 ≠ .XYZIMAGE_ERROR_OK then (none, e3)
      else
        let height := xyzpriv_swap_when_big isBig (u16FromHostBytes isBig hbytes)
        match xyzimage_alloc zlib width height .XYZIMAGE_FORMAT_DEFAULT with
        | (none, e) => (none, e)
        | (some image, _) =>
          let xyz_size := XYZIMAGE_PALETTE_SIZE + image.width * image.height
          let rc := readCompressed read_func s3 xyz_size
          if rc.err ≠ .XYZIMAGE_ERROR_IO_READ_END_OF_FILE then
            if rc.err = .XYZIMAGE_ERROR_OK then (none, .XYZIMAGE_ERROR_IO_READ_IMAGE_TOO_BIG)
            else (none, rc.err)
          else
            let image := { image with data_len_compressed := rc.res }
            match zlib.uncompress (rc.buf.take rc.res) xyz_size with
            | none => (none, .XYZIMAGE_ERROR_ZLIB)
            | some decompressed =>
              if decompressed.length ≠ xyz_size then
                (none, .XYZIMAGE_ERROR_IO_READ_IMAGE_TOO_SMALL)
              else
                let image := { image with
                  palette := paletteFromBytes XYZIMAGE_PALETTE_ENTRIES decompressed }
                match xyzimage_get_buffer (some image) with
                | none => (none, .XYZIMAGE_ERROR_OK)
                | some (_, img_buffer_len) =>
                  (some { image with
                      data := (decompressed.drop XYZIMAGE_PALETTE_SIZE).take img_buffer_len },
                   .XYZIMAGE_ERROR_OK)

/-- Model of xyzimage_write_func_t over a caller-chosen sink state: given the
state and the bytes to write, return the new state, the count reported as
written, and the error code stored through the error pointer. -/
def WriteFunc (τ : Type) : Type := τ → List Nat → τ × Nat × XYZImage_Error

/-- Result of xyzimage_write: the (possibly updated) handle, the final sink
state, the int return value (1 success, 0 failure) and the error code. -/
structure WriteResult (τ : Type) where
  image : Option XYZImage
  sink : τ
  ret : Nat
  err : XYZImage_Error

/-- The concatenated palette + pixel buffer xyzimage_write compresses
(768 palette bytes followed by data_len pixel bytes). -/
def writeInput (image : XYZImage) : List Nat :=
  paletteToBytes XYZIMAGE_PALETTE_ENTRIES image.palette ++ image.data.take image.data_len

/-- The nominal payload size 768 + width * height used by xyzimage_write and
xyzimage_open. -/
def nominalSize (image : XYZImage) : Nat :=
  XYZIMAGE_PALETTE_SIZE + image.width * image.height

/-- The two-attempt compression of xyzimage_write: call the compression
function of the handle with output capacity xyz_size; exactly when it fails
with XYZIMAGE_ERROR_BUFFER_TOO_SMALL, call it once more with capacity
xyz_size * 2 (after realloc); any other outcome of the first call is
final. -/
def writeCompressProto (cf : CompressFunc) (buffer_in : List Nat) (xyz_size : Nat) :
    Except XYZImage_Error (List Nat) :=
  match cf buffer_in xyz_size with
  | .error e =>
    if e = .XYZIMAGE_ERROR_BUFFER_TOO_SMALL then cf buffer_in (xyz_size * 2)
    else .error e
  | .ok out => .ok out

/-- The sequence of output capacities the compression function is invoked
with by xyzimage_write (one element per invocation, in order). -/
def writeCompressCaps (cf : CompressFunc) (buffer_in : List Nat) (xyz_size : Nat) : List Nat :=
  match cf buffer_in xyz_size with
  | .error e =>
    if e = .XYZIMAGE_ERROR_BUFFER_TOO_SMALL then [xyz_size, xyz_size * 2]
    else [xyz_size]
  | .ok _ => [xyz_size]

/-- xyzimage_write of xyzimage.c: validate the handle and format, build the
palette + pixel payload, compress it under the two-attempt protocol, record
data_len_compressed, then emit the "XYZ1" magic, width and height (uint16,
byte-swapped on big-endian hosts) and the compressed bytes through the
write function. -/
def xyzimage_write {τ : Type} (h : Option XYZImage) (write_func : WriteFunc τ)
    (userdata : τ) (isBig : Bool) : WriteResult τ :=
  match h with
  | none => ⟨none, userdata, 0, .XYZIMAGE_ERROR_XYZIMAGE_INVALID⟩
  | some image =>
    if imgValid image = false then
      ⟨some image, userdata, 0, .XYZIMAGE_ERROR_XYZIMAGE_INVALID⟩
    else
      match image.format with
      | .XYZIMAGE_FORMAT_DEFAULT =>
        let xyz_size := nominalSize image
        let decompressed_xyz := writeInput image
        match writeCompressProto image.compress_func decompressed_xyz xyz_size with
        | .error e => ⟨some image, userdata, 0, e⟩
        | .ok compressed_xyz =>
          if compressed_xyz.length = 0 then
            ⟨some image, userdata, 0, .XYZIMAGE_ERROR_OK⟩
          else
            let image := { image with data_len_compressed := compressed_xyz.length }
            let (t1, r1, e1) := write_func userdata XYZ1_MAGIC
            if r1 ≠ 4 ∨ e1 ≠ .XYZIMAGE_ERROR_OK then ⟨some image, t1, 0, e1⟩
            else
              let (t2, r2, e2) := write_func t1
                (u16ToHostBytes isBig (xyzpriv_swap_when_big isBig image.width))
              if r2 ≠ 2 ∨ e2 ≠ .XYZIMAGE_ERROR_OK then ⟨some image, t2, 0, e2⟩
              else
                let (t3, r3, e3) := write_func t2
                  (u16ToHostBytes isBig (xyzpriv_swap_when_big isBig image.height))
                if r3 ≠ 2 ∨ e3 ≠ .XYZIMAGE_ERROR_OK then ⟨some image, t3, 0, e3⟩
                else
                  let (t4, r4, e4) := write_func t3 compressed_xyz
                  if r4 ≠ compressed_xyz.length ∨ e4 ≠ .XYZIMAGE_ERROR_OK then
                    ⟨some image, t4, 0, e4⟩
                  else ⟨some image, t4, 1, .XYZIMAGE_ERROR_OK⟩
      | _ => ⟨some image, userdata, 0, .XYZIMAGE_ERROR_FORMAT_NOT_SUPPORTED⟩

/-- xyzpriv_fread_func over a pure byte stream (the byte list plus a read
position): fread returns as many of the requested bytes as remain; a short
read at the end of the stream reports XYZIMAGE_ERROR_IO_READ_END_OF_FILE
(feof). -/
def fileRead : ReadFunc (List Nat × Nat) := fun s amount =>
  let chunk := (s.1.drop s.2).take amount
  ((s.1, s.2 + chunk.length), chunk,
   if chunk.length = amount then .XYZIMAGE_ERROR_OK
   else .XYZIMAGE_ERROR_IO_READ_END_OF_FILE)

/-- xyzpriv_fwrite_func over a pure byte sink: append the bytes and report
them all written. -/
def listWrite : WriteFunc (List Nat) := fun t buf =>
  (t ++ buf, buf.length, .XYZIMAGE_ERROR_OK)

/-- A trivially correct stand-in for zlib used to instantiate theorems with
hypotheses about the codec: the bound is the input length, compression is
the identity and decompression returns the source when it fits the
destination capacity. -/
def storeZlib : Zlib where
  compressBound := fun n => n
  compress2 := fun input => some input
  uncompress := fun src cap => if src.length ≤ cap then some src else none

/-- A byte source that never signals end-of-stream: the first read delivers
the "XYZ1" magic, every later read delivers the requested number of zero
bytes, and the error pointer is never touched. -/
def endlessRead : ReadFunc Nat := fun s amount =>
  (s + 1, if s = 0 then XYZ1_MAGIC else List.replicate amount 0, .XYZIMAGE_ERROR_OK)

/-- The handle invariant of the spec: 256 palette entries (768 bytes) and a
pixel buffer of exactly width * height bytes, with the stored length field
in agreement. -/
def wfImage (image : XYZImage) : Prop :=
  image.palette.length = XYZIMAGE_PALETTE_ENTRIES ∧
  image.data.length = image.width * image.height ∧
  image.data_len = image.width * image.height

lemma length_paletteToBytes (n : Nat) (p : List (Nat × Nat × Nat)) :
    (paletteToBytes n p).length = 3 * n := by
  induction n generalizing p with
  | zero => simp [paletteToBytes]
  | succ m ih => simp [paletteToBytes, ih]; omega

lemma length_paletteFromBytes (n : Nat) (bs : List Nat) :
    (paletteFromBytes n bs).length = n := by
  induction n generalizing bs with
  | zero => simp [paletteFromBytes]
  | succ m ih => simp [paletteFromBytes, ih]

lemma paletteFromBytes_toBytes (n : Nat) (p : List (Nat × Nat × Nat)) (rest : List Nat)
    (hp : p.length = n) : paletteFromBytes n (paletteToBytes n p ++ rest) = p := by
  induction n generalizing p rest with
  | zero =>
    have : p = [] := List.length_eq_zero.mp hp
    simp [this, paletteFromBytes]
  | succ m ih =>
    match p with
    | [] => simp at hp
    | e :: p2 =>
      have hp2 : p2.length = m := by simpa using hp
      show e :: paletteFromBytes m (paletteToBytes m p2 ++ rest) = e :: p2
      rw [ih p2 rest hp2]

lemma u16_wire_bytes (isBig : Bool) (w : Nat) (hw : w < 65536) :
    u16ToHostBytes isBig (xyzpriv_swap_when_big isBig w) = [w % 256, w / 256] := by
  cases isBig
  · simp [u16ToHostBytes, xyzpriv_swap_when_big]
    all_goals omega
  · have hv : w / 256 + w % 256 * 256 < 65536 := by omega
    simp [u16ToHostBytes, xyzpriv_swap_when_big, Nat.mod_eq_of_lt hw, Nat.mod_eq_of_lt hv]
    all_goals omega

lemma u16_parse_bytes (isBig : Bool) (w : Nat) (hw : w < 65536) :
    xyzpriv_swap_when_big isBig (u16FromHostBytes isBig [w % 256, w / 256]) = w := by
  have e1 : w % 256 % 256 = w % 256 := by omega
  have e2 : w / 256 % 256 = w / 256 := by omega
  cases isBig
  · simp [u16FromHostBytes, xyzpriv_swap_when_big, e1, e2]
    all_goals omega
  · have hv : w % 256 * 256 + w / 256 < 65536 := by omega
    simp [u16FromHostBytes, xyzpriv_swap_when_big, e1, e2, Nat.mod_eq_of_lt hv]
    all_goals omega

lemma length_u16ToHostBytes (isBig : Bool) (w : Nat) :
    (u16ToHostBytes isBig w).length = 2 := by
  cases isBig <;> rfl

lemma fileRead_eq (bs : List Nat) (pos amt : Nat) :
    fileRead (bs, pos) amt =
      ((bs, pos + ((bs.drop pos).take amt).length), (bs.drop pos).take amt,
       if ((bs.drop pos).take amt).length = amt then .XYZIMAGE_ERROR_OK
       else .XYZIMAGE_ERROR_IO_READ_END_OF_FILE) := rfl

lemma readCompressed_fileRead (bs : List Nat) (pos sz : Nat)
    (hlt : (bs.drop pos).length < 2 * sz) :
    readCompressed fileRead (bs, pos) sz =
      { state := (bs, pos + (bs.drop pos).length), buf := bs.drop pos,
        res := (bs.drop pos).length, err := .XYZIMAGE_ERROR_IO_READ_END_OF_FILE,
        capacity := if (bs.drop pos).length < sz then sz else sz * 2 } := by
  by_cases hcase : (bs.drop pos).length < sz
  · have htake : (bs.drop pos).take sz = bs.drop pos :=
      List.take_of_length_le (Nat.le_of_lt hcase)
    have hne : (bs.drop pos).length ≠ sz := Nat.ne_of_lt hcase
    simp only [readCompressed, fileRead_eq, htake, if_neg hne, if_pos hcase]
    simp
  · push_neg at hcase
    have hlen1 : ((bs.drop pos).take sz).length = sz := by
      rw [List.length_take]; omega
    have hdrop2 : bs.drop (pos + sz) = (bs.drop pos).drop sz := by
      rw [List.drop_drop, Nat.add_comm]
    have hlen2 : ((bs.drop pos).drop sz).length = (bs.drop pos).length - sz :=
      List.length_drop sz (bs.drop pos)
    have htake2 : ((bs.drop pos).drop sz).take sz = (bs.drop pos).drop sz := by
      apply List.take_of_length_le; omega
    have hne2 : ((bs.drop pos).drop sz).length ≠ sz := by omega
    have hns : ¬ (bs.drop pos).length < sz := by omega
    simp only [readCompressed, fileRead_eq, hlen1, hdrop2, htake2,
      if_neg hne2, if_neg hns, eq_self_iff_true, if_true,
      ReadCompressedResult.mk.injEq, Prod.mk.injEq, List.take_append_drop,
      true_and, and_true]
    refine ⟨?_, ?_⟩ <;> omega

lemma xyzimage_open_unfold {σ : Type} (zlib : Zlib) (rf : ReadFunc σ) (s : σ) (isBig : Bool)
    (s1 s2 s3 : σ) (wb hb : List Nat)
    (h1 : rf s 4 = (s1, XYZ1_MAGIC, .XYZIMAGE_ERROR_OK))
    (h2 : rf s1 2 = (s2, wb, .XYZIMAGE_ERROR_OK)) (hwb : wb.length = 2)
    (h3 : rf s2 2 = (s3, hb, .XYZIMAGE_ERROR_OK)) (hhb : hb.length = 2) :
    xyzimage_open zlib rf s isBig =
      (let width := xyzpriv_swap_when_big isBig (u16FromHostBytes isBig wb)
       let height := xyzpriv_swap_when_big isBig (u16FromHostBytes isBig hb)
       let xyz_size := XYZIMAGE_PALETTE_SIZE + width * height
       let rc := readCompressed rf s3 xyz_size
       if rc.err ≠ .XYZIMAGE_ERROR_IO_READ_END_OF_FILE then
         if rc.err = .XYZIMAGE_ERROR_OK then (none, .XYZIMAGE_ERROR_IO_READ_IMAGE_TOO_BIG)
         else (none, rc.err)
       else
         match zlib.uncompress (rc.buf.take rc.res) xyz_size with
         | none => (none, .XYZIMAGE_ERROR_ZLIB)
         | some decompressed =>
           if decompressed.length ≠ xyz_size then
             (none, .XYZIMAGE_ERROR_IO_READ_IMAGE_TOO_SMALL)
           else
             (some { header := LXYZ_MAGIC, version := 1, width := width, height := height,
                     format := .XYZIMAGE_FORMAT_DEFAULT,
                     palette := paletteFromBytes XYZIMAGE_PALETTE_ENTRIES decompressed,
                     data_len := width * height, data_len_compressed := rc.res,
                     data := (decompressed.drop XYZIMAGE_PALETTE_SIZE).take (width * height),
                     compress_func := xyzpriv_compress_func zlib },
              .XYZIMAGE_ERROR_OK)) := by
  unfold xyzimage_open
  rw [h1]
  simp only [XYZ1_MAGIC, List.length_cons, List.length_nil]
  norm_num
  rw [h2]
  simp only [hwb]
  norm_num
  rw [h3]
  simp only [hhb]
  norm_num
  simp [xyzimage_alloc, xyzimage_get_buffer, imgValid, LXYZ_MAGIC]

lemma xyzimage_write_listWrite (isBig : Bool) (image : XYZImage) (cbytes : List Nat)
    (t : List Nat)
    (hvalid : imgValid image = true) (hfmt : image.format = .XYZIMAGE_FORMAT_DEFAULT)
    (hc : writeCompressProto image.compress_func (writeInput image) (nominalSize image) =
      .ok cbytes)
    (hne : cbytes ≠ []) :
    xyzimage_write (some image) listWrite t isBig =
      ⟨some { image with data_len_compressed := cbytes.length },
       t ++ (XYZ1_MAGIC ++
         (u16ToHostBytes isBig (xyzpriv_swap_when_big isBig image.width) ++
          (u16ToHostBytes isBig (xyzpriv_swap_when_big isBig image.height) ++ cbytes))),
       1, .XYZIMAGE_ERROR_OK⟩ := by
  have hlen0 : cbytes.length ≠ 0 := fun h => hne (List.length_eq_zero.mp h)
  simp [xyzimage_write, hvalid, hfmt, hc, hlen0, listWrite, length_u16ToHostBytes,
    XYZ1_MAGIC, List.append_assoc]

/-- A concrete valid 0x0 handle used to instantiate theorems with hypotheses. -/
def testImage0 : XYZImage :=
  { header := LXYZ_MAGIC, version := 1, width := 0, height := 0,
    format := .XYZIMAGE_FORMAT_DEFAULT, palette := List.replicate 256 (0, 0, 0),
    data_len := 0, data_len_compressed := 0, data := [],
    compress_func := xyzpriv_compress_func storeZlib }

/-- A concrete custom compression function used to instantiate theorems. -/
def constCompress : CompressFunc := fun buffer_in _ => .ok buffer_in

/-- C3: for every input stream whose first 4 bytes are readable (delivered in
full with no error signalled) but differ from the literal "XYZ1" bytes,
xyzimage_open returns no handle and sets
XYZIMAGE_ERROR_IO_READ_BAD_HEADER. -/
theorem xyzimage_open_bad_magic {σ : Type} (zlib : Zlib) (rf : ReadFunc σ) (s : σ)
    (isBig : Bool) (s1 : σ) (hdr : List Nat)
    (h1 : rf s 4 = (s1, hdr, .XYZIMAGE_ERROR_OK))
    (hlen : hdr.length = 4) (hmag : hdr ≠ XYZ1_MAGIC) :
    xyzimage_open zlib rf s isBig = (none, .XYZIMAGE_ERROR_IO_READ_BAD_HEADER) := by
  unfold xyzimage_open
  rw [h1]
  simp [hlen, hmag]

/-- Witness for C3: the stream starting 0,1,2,3 is rejected with the
malformed-header error. -/
theorem xyzimage_open_bad_magic_witness :
    xyzimage_open storeZlib fileRead ([0, 1, 2, 3, 9, 9], 0) false =
      (none, .XYZIMAGE_ERROR_IO_READ_BAD_HEADER) :=
  xyzimage_open_bad_magic storeZlib fileRead ([0, 1, 2, 3, 9, 9], 0) false
    ([0, 1, 2, 3, 9, 9], 4) [0, 1, 2, 3] rfl (by decide) (by decide)

/-- C6: for every input buffer and output capacity, the default compression
function first computes the zlib upper bound for the compressed size; it
fails with XYZIMAGE_ERROR_BUFFER_TOO_SMALL, delivering no output, whenever
that bound exceeds the capacity, and whenever it delivers output the bound
fits the capacity and the output is exactly the compress2 result (never a
truncation). -/
theorem xyzpriv_compress_bound_check (zlib : Zlib) (buffer_in : List Nat) (len_out : Nat) :
    (zlib.compressBound buffer_in.length > len_out →
      xyzpriv_compress_func zlib buffer_in len_out =
        .error .XYZIMAGE_ERROR_BUFFER_TOO_SMALL) ∧
    (∀ out, xyzpriv_compress_func zlib buffer_in len_out = .ok out →
      zlib.compressBound buffer_in.length ≤ len_out ∧
      zlib.compress2 buffer_in = some out) := by
  constructor
  · intro hgt
    simp [xyzpriv_compress_func, hgt]
  · intro out hok
    unfold xyzpriv_compress_func at hok
    by_cases hgt : zlib.compressBound buffer_in.length > len_out
    · simp [hgt] at hok
    · refine ⟨by omega, ?_⟩
      simp only [hgt, if_false] at hok
      cases hcc : zlib.compress2 buffer_in with
      | none => rw [hcc] at hok; simp at hok
      | some bout => rw [hcc] at hok; simp at hok; rw [hok]

/-- Witness for C6: with the store codec (bound = length), a 3-byte input
fails on capacity 2 with the buffer-too-small classification and succeeds
untruncated on capacity 3. -/
theorem xyzpriv_compress_bound_check_witness :
    xyzpriv_compress_func storeZlib [7, 8, 9] 2 =
      .error .XYZIMAGE_ERROR_BUFFER_TOO_SMALL ∧
    storeZlib.compressBound 3 ≤ 3 ∧ storeZlib.compress2 [7, 8, 9] = some [7, 8, 9] :=
  ⟨(xyzpriv_compress_bound_check storeZlib [7, 8, 9] 2).1 (by decide),
   (xyzpriv_compress_bound_check storeZlib [7, 8, 9] 3).2 [7, 8, 9] rfl⟩

/-- C7: every handle pointer failing the validity-marker check (null, never
stamped, or released by xyzimage_free, which corrupts the marker) makes all
public read-only accessors return their neutral values: width 0, height 0,
buffer NULL, palette NULL (with the invalid-handle error), format NONE,
filesize 0, compressed filesize 0; and any handle that went through
xyzimage_free fails the validity check afterwards. -/
theorem accessors_neutral_on_invalid (h : Option XYZImage)
    (hinv : xyzimage_is_valid h = false) :
    xyzimage_get_width h = 0 ∧ xyzimage_get_height h = 0 ∧
    xyzimage_get_buffer h = none ∧
    xyzimage_get_palette h = (none, .XYZIMAGE_ERROR_XYZIMAGE_INVALID) ∧
    xyzimage_get_format h = .XYZIMAGE_FORMAT_NONE ∧
    xyzimage_get_filesize h = 0 ∧ xyzimage_get_compressed_filesize h = 0 ∧
    (∀ image : XYZImage, xyzimage_is_valid (xyzimage_free (some image)).1 = false) := by
  have hfree : ∀ image : XYZImage, xyzimage_is_valid (xyzimage_free (some image)).1 = false := by
    intro image
    by_cases hv : imgValid image = false
    · simp [xyzimage_free, hv, xyzimage_is_valid]
    · have hv2 : imgValid image = true := by
        cases hb : imgValid image
        · exact absurd hb hv
        · rfl
      obtain ⟨hhdr, hver⟩ : image.header = LXYZ_MAGIC ∧ image.version = 1 := by
        have h2 := hv2
        unfold imgValid at h2
        simp only [Bool.and_eq_true, beq_iff_eq] at h2
        exact h2
      simp [xyzimage_free, hv2, xyzimage_is_valid, imgValid, hhdr, hver, LXYZ_MAGIC]
  cases h with
  | none =>
    refine ⟨rfl, rfl, rfl, rfl, rfl, rfl, rfl, hfree⟩
  | some image =>
    have hv : imgValid image = false := by simpa [xyzimage_is_valid] using hinv
    refine ⟨?_, ?_, ?_, ?_, ?_, ?_, ?_, hfree⟩ <;>
      simp [xyzimage_get_width, xyzimage_get_height, xyzimage_get_buffer,
        xyzimage_get_palette, xyzimage_get_format, xyzimage_get_filesize,
        xyzimage_get_compressed_filesize, hv]

/-- Witness for C7: the null handle yields all neutral accessor values, and
freeing the concrete valid handle leaves a handle failing the validity
check. -/
theorem accessors_neutral_on_invalid_witness :
    xyzimage_get_width none = 0 ∧ xyzimage_get_height none = 0 ∧
    xyzimage_get_buffer none = none ∧
    xyzimage_get_palette none = (none, .XYZIMAGE_ERROR_XYZIMAGE_INVALID) ∧
    xyzimage_get_format none = .XYZIMAGE_FORMAT_NONE ∧
    xyzimage_get_filesize none = 0 ∧ xyzimage_get_compressed_filesize none = 0 ∧
    (∀ image : XYZImage, xyzimage_is_valid (xyzimage_free (some image)).1 = false) :=
  accessors_neutral_on_invalid none rfl

/-- C10: on a valid handle, xyzimage_set_compress_func installs the built-in
DEFLATE default when given a NULL function pointer and installs exactly the
given function otherwise; on an invalid handle it changes nothing. -/
theorem set_compress_func_spec (zlib : Zlib) (image : XYZImage) (f : CompressFunc)
    (h : Option XYZImage) (g : Option CompressFunc) :
    (imgValid image = true →
      xyzimage_set_compress_func zlib (some image) none =
        some { image with compress_func := xyzpriv_compress_func zlib } ∧
      xyzimage_set_compress_func zlib (some image) (some f) =
        some { image with compress_func := f }) ∧
    (xyzimage_is_valid h = false → xyzimage_set_compress_func zlib h g = h) := by
  constructor
  · intro hv
    constructor <;> simp [xyzimage_set_compress_func, hv]
  · intro hinv
    cases h with
    | none => rfl
    | some img =>
      have hv : imgValid img = false := by simpa [xyzimage_is_valid] using hinv
      simp [xyzimage_set_compress_func, hv]

/-- Witness for C10: on the concrete valid handle a NULL pointer restores the
default and a custom function is installed verbatim; on the null handle the
call is a no-op. -/
theorem set_compress_func_spec_witness :
    xyzimage_set_compress_func storeZlib (some testImage0) none =
      some { testImage0 with compress_func := xyzpriv_compress_func storeZlib } ∧
    xyzimage_set_compress_func storeZlib (some testImage0) (some constCompress) =
      some { testImage0 with compress_func := constCompress } ∧
    xyzimage_set_compress_func storeZlib none none = none :=
  ⟨((set_compress_func_spec storeZlib testImage0 constCompress none none).1 (by decide)).1,
   ((set_compress_func_spec storeZlib testImage0 constCompress none none).1 (by decide)).2,
   (set_compress_func_spec storeZlib testImage0 constCompress none none).2 rfl⟩

/-- A compression function failing with buffer-too-small below capacity 2 and
with a compression error otherwise, used to instantiate theorems. -/
def retryCompress : CompressFunc := fun _ len_out =>
  if len_out < 2 then .error .XYZIMAGE_ERROR_BUFFER_TOO_SMALL
  else .error .XYZIMAGE_ERROR_IO_COMPRESS

/-- A concrete valid handle whose compression function always fails. -/
def failImage : XYZImage := { testImage0 with compress_func := retryCompress }

/-- C5: xyzimage_write invokes the compression function of the handle first
with output capacity nominal; exactly when that call signals
XYZIMAGE_ERROR_BUFFER_TOO_SMALL it invokes it once more with capacity
2 * nominal, and in every other case there is no second call and the first
outcome stands; when the protocol ends in an error the write returns 0 with
that error, the handle untouched and nothing written to the sink. -/
theorem xyzimage_write_compress_retry {τ : Type} (cf : CompressFunc) (buffer_in : List Nat)
    (xyz_size : Nat) (write_func : WriteFunc τ) (t : τ) (isBig : Bool) (image : XYZImage)
    (e : XYZImage_Error) :
    (writeCompressCaps cf buffer_in xyz_size = [xyz_size, xyz_size * 2] ↔
      cf buffer_in xyz_size = .error .XYZIMAGE_ERROR_BUFFER_TOO_SMALL) ∧
    (cf buffer_in xyz_size ≠ .error .XYZIMAGE_ERROR_BUFFER_TOO_SMALL →
      writeCompressCaps cf buffer_in xyz_size = [xyz_size] ∧
      writeCompressProto cf buffer_in xyz_size = cf buffer_in xyz_size) ∧
    (cf buffer_in xyz_size = .error .XYZIMAGE_ERROR_BUFFER_TOO_SMALL →
      writeCompressProto cf buffer_in xyz_size = cf buffer_in (xyz_size * 2)) ∧
    (imgValid image = true → image.format = .XYZIMAGE_FORMAT_DEFAULT →
      writeCompressProto image.compress_func (writeInput image) (nominalSize image) =
        .error e →
      xyzimage_write (some image) write_func t isBig = ⟨some image, t, 0, e⟩) := by
  refine ⟨?_, ?_, ?_, ?_⟩
  · unfold writeCompressCaps
    cases hcc : cf buffer_in xyz_size with
    | error e0 =>
      by_cases hbts : e0 = .XYZIMAGE_ERROR_BUFFER_TOO_SMALL
      · subst hbts; simp
      · simp [hbts]
    | ok out => simp
  · intro hn
    unfold writeCompressCaps writeCompressProto
    cases hcc : cf buffer_in xyz_size with
    | error e0 =>
      by_cases hbts : e0 = .XYZIMAGE_ERROR_BUFFER_TOO_SMALL
      · subst hbts; exact absurd hcc hn
      · simp [hbts]
    | ok out => simp
  · intro hb
    unfold writeCompressProto
    rw [hb]
    simp
  · intro hv hf hp
    simp [xyzimage_write, hv, hf, hp]

/-- Witness for C5: with a function failing buffer-too-small at capacity 1,
the capacities used are 1 then 2; a function failing at capacity 768 with a
compression error produces exactly one call and the write fails with
that error, the sink untouched. -/
theorem xyzimage_write_compress_retry_witness :
    writeCompressCaps retryCompress [5] 1 = [1, 1 * 2] ∧
    writeCompressCaps retryCompress [5] 5 = [5] ∧
    xyzimage_write (some failImage) listWrite [] false =
      ⟨some failImage, [], 0, .XYZIMAGE_ERROR_IO_COMPRESS⟩ :=
  ⟨(xyzimage_write_compress_retry retryCompress [5] 1 listWrite [] false failImage
      .XYZIMAGE_ERROR_IO_COMPRESS).1.mpr rfl,
   ((xyzimage_write_compress_retry retryCompress [5] 5 listWrite [] false failImage
      .XYZIMAGE_ERROR_IO_COMPRESS).2.1 (by simp [retryCompress])).1,
   (xyzimage_write_compress_retry retryCompress [5] 5 listWrite [] false failImage
      .XYZIMAGE_ERROR_IO_COMPRESS).2.2.2 (by decide) rfl rfl⟩

/-- C9: on every host byte order, a successful xyzimage_write emits width and
height in little-endian order right after the 4-byte magic: the wire is the
magic, then width low byte and width high byte, then height low byte and
height high byte, then the compressed payload. -/
theorem write_little_endian (isBig : Bool) (image : XYZImage) (cbytes : List Nat)
    (hvalid : imgValid image = true) (hfmt : image.format = .XYZIMAGE_FORMAT_DEFAULT)
    (hw : image.width < 65536) (hh : image.height < 65536)
    (hc : writeCompressProto image.compress_func (writeInput image) (nominalSize image) =
      .ok cbytes) (hne : cbytes ≠ []) :
    (xyzimage_write (some image) listWrite [] isBig).sink =
      XYZ1_MAGIC ++
        ([image.width % 256, image.width / 256] ++
         ([image.height % 256, image.height / 256] ++ cbytes)) := by
  rw [xyzimage_write_listWrite isBig image cbytes [] hvalid hfmt hc hne]
  simp [u16_wire_bytes isBig image.width hw, u16_wire_bytes isBig image.height hh]

/-- C2: when the first payload read of nominal = 768 + width * height bytes
completes with no end-of-stream signalled, and the follow-up read of up to
nominal further bytes also completes with no end-of-stream signalled,
xyzimage_open returns no handle with XYZIMAGE_ERROR_IO_READ_IMAGE_TOO_BIG;
and for every source and size the compressed-read buffer capacity never
exceeds 2 * nominal. -/
theorem xyzimage_open_oversized_cap {σ : Type} (zlib : Zlib) (rf : ReadFunc σ) (s : σ)
    (isBig : Bool) (s1 s2 s3 s4 s5 : σ) (wb hb c1 c2 : List Nat) (width height : Nat)
    (h1 : rf s 4 = (s1, XYZ1_MAGIC, .XYZIMAGE_ERROR_OK))
    (h2 : rf s1 2 = (s2, wb, .XYZIMAGE_ERROR_OK)) (hwb : wb.length = 2)
    (h3 : rf s2 2 = (s3, hb, .XYZIMAGE_ERROR_OK)) (hhb : hb.length = 2)
    (hW : xyzpriv_swap_when_big isBig (u16FromHostBytes isBig wb) = width)
    (hH : xyzpriv_swap_when_big isBig (u16FromHostBytes isBig hb) = height)
    (h4 : rf s3 (768 + width * height) = (s4, c1, .XYZIMAGE_ERROR_OK))
    (h5 : rf s4 (768 + width * height) = (s5, c2, .XYZIMAGE_ERROR_OK)) :
    xyzimage_open zlib rf s isBig = (none, .XYZIMAGE_ERROR_IO_READ_IMAGE_TOO_BIG) ∧
    ∀ (s0 : σ) (sz : Nat), (readCompressed rf s0 sz).capacity ≤ 2 * sz := by
  have hcap : ∀ (s0 : σ) (sz : Nat), (readCompressed rf s0 sz).capacity ≤ 2 * sz := by
    intro s0 sz
    unfold readCompressed
    rcases hr : rf s0 sz with ⟨sA, cA, eA⟩
    by_cases he : eA = .XYZIMAGE_ERROR_OK
    · subst he
      rcases hr2 : rf sA sz with ⟨sB, cB, eB⟩
      simp only [hr, hr2]
      simp
      omega
    · simp only [hr]
      simp [he]
      omega
  refine ⟨?_, hcap⟩
  rw [xyzimage_open_unfold zlib rf s isBig s1 s2 s3 wb hb h1 h2 hwb h3 hhb]
  have h768 : XYZIMAGE_PALETTE_SIZE = 768 := rfl
  have hrc : (readCompressed rf s3 (768 + width * height)).err = .XYZIMAGE_ERROR_OK := by
    unfold readCompressed
    rw [h4]
    simp [h5]
  simp only [hW, hH, h768]
  simp [hrc]

/-- Witness for C2: a source that never signals end-of-stream (magic then an
endless run of zero bytes) is rejected as oversized, and the capacity for
the 0x0 nominal size 768 stays within 2 * 768. -/
theorem xyzimage_open_oversized_cap_witness :
    xyzimage_open storeZlib endlessRead 0 false =
      (none, .XYZIMAGE_ERROR_IO_READ_IMAGE_TOO_BIG) ∧
    (readCompressed endlessRead 3 768).capacity ≤ 2 * 768 := by
  have h := xyzimage_open_oversized_cap storeZlib endlessRead 0 false 1 2 3 4 5
    [0, 0] [0, 0] (List.replicate 768 0) (List.replicate 768 0) 0 0
    rfl rfl (by decide) rfl (by decide) rfl rfl rfl rfl
  exact ⟨h.1, h.2 3 768⟩

/-- C4: whenever the payload-reading phase ends with the end-of-stream
signal and the compressed bytes inflate successfully but to a length
different from nominal = 768 + width * height, xyzimage_open returns no
handle with XYZIMAGE_ERROR_IO_READ_IMAGE_TOO_SMALL. -/
theorem xyzimage_open_size_mismatch {σ : Type} (zlib : Zlib) (rf : ReadFunc σ) (s : σ)
    (isBig : Bool) (s1 s2 s3 : σ) (wb hb : List Nat) (width height : Nat)
    (decompressed : List Nat)
    (h1 : rf s 4 = (s1, XYZ1_MAGIC, .XYZIMAGE_ERROR_OK))
    (h2 : rf s1 2 = (s2, wb, .XYZIMAGE_ERROR_OK)) (hwb : wb.length = 2)
    (h3 : rf s2 2 = (s3, hb, .XYZIMAGE_ERROR_OK)) (hhb : hb.length = 2)
    (hW : xyzpriv_swap_when_big isBig (u16FromHostBytes isBig wb) = width)
    (hH : xyzpriv_swap_when_big isBig (u16FromHostBytes isBig hb) = height)
    (heof : (readCompressed rf s3 (768 + width * height)).err =
      .XYZIMAGE_ERROR_IO_READ_END_OF_FILE)
    (hun : zlib.uncompress
        ((readCompressed rf s3 (768 + width * height)).buf.take
          (readCompressed rf s3 (768 + width * height)).res) (768 + width * height) =
      some decompressed)
    (hlen : decompressed.length ≠ 768 + width * height) :
    xyzimage_open zlib rf s isBig = (none, .XYZIMAGE_ERROR_IO_READ_IMAGE_TOO_SMALL) := by
  rw [xyzimage_open_unfold zlib rf s isBig s1 s2 s3 wb hb h1 h2 hwb h3 hhb]
  have h768 : XYZIMAGE_PALETTE_SIZE = 768 := rfl
  simp only [hW, hH, h768]
  simp [heof, hun, hlen]

/-- Witness for C4: a 0x0 header followed by the 3-byte payload 1,2,3 under
the store codec inflates to 3 bytes, not 768, and is rejected as
truncated. -/
theorem xyzimage_open_size_mismatch_witness :
    xyzimage_open storeZlib fileRead ([88, 89, 90, 49, 0, 0, 0, 0, 1, 2, 3], 0) false =
      (none, .XYZIMAGE_ERROR_IO_READ_IMAGE_TOO_SMALL) :=
  xyzimage_open_size_mismatch storeZlib fileRead ([88, 89, 90, 49, 0, 0, 0, 0, 1, 2, 3], 0)
    false ([88, 89, 90, 49, 0, 0, 0, 0, 1, 2, 3], 4) ([88, 89, 90, 49, 0, 0, 0, 0, 1, 2, 3], 6)
    ([88, 89, 90, 49, 0, 0, 0, 0, 1, 2, 3], 8) [0, 0] [0, 0] 0 0 [1, 2, 3]
    rfl rfl (by decide) rfl (by decide) rfl rfl rfl rfl (by decide)

/-- A concrete valid 258x1 handle (width 0x0102) under the store codec. -/
def img258 : XYZImage :=
  { header := LXYZ_MAGIC, version := 1, width := 258, height := 1,
    format := .XYZIMAGE_FORMAT_DEFAULT, palette := List.replicate 256 (0, 0, 0),
    data_len := 258, data_len_compressed := 0, data := List.replicate 258 7,
    compress_func := xyzpriv_compress_func storeZlib }

set_option maxRecDepth 40000 in
/-- Witness for C9: the 258x1 handle (width 0x0102) serializes with bytes
0x02, 0x01 right after the magic, on either host byte order. -/
theorem write_little_endian_witness :
    (xyzimage_write (some img258) listWrite [] true).sink =
      XYZ1_MAGIC ++ ([2, 1] ++ ([1, 0] ++ writeInput img258)) ∧
    (xyzimage_write (some img258) listWrite [] false).sink =
      XYZ1_MAGIC ++ ([2, 1] ++ ([1, 0] ++ writeInput img258)) := by
  have hc : writeCompressProto img258.compress_func (writeInput img258)
      (nominalSize img258) = .ok (writeInput img258) := rfl
  have hne : writeInput img258 ≠ [] := by
    have hlen : (writeInput img258).length = 1026 := rfl
    intro hcon
    rw [hcon] at hlen
    simp at hlen
  constructor <;>
  · rw [write_little_endian _ img258 (writeInput img258) (by decide) rfl (by decide)
      (by decide) hc hne]
    refine congrArg₂ _ rfl (congrArg₂ _ ?_ (congrArg₂ _ ?_ rfl)) <;> decide

lemma xyzimage_open_wf {σ : Type} (zlib : Zlib) (rf : ReadFunc σ) (s : σ) (isBig : Bool)
    (image : XYZImage) (e : XYZImage_Error)
    (hopen : xyzimage_open zlib rf s isBig = (some image, e)) : wfImage image := by
  rcases h1 : rf s 4 with ⟨s1, hdr, e1⟩
  by_cases c1 : hdr.length ≠ 4 ∨ e1 ≠ .XYZIMAGE_ERROR_OK
  · have hfail : xyzimage_open zlib rf s isBig = (none, e1) := by
      unfold xyzimage_open
      rw [h1]; dsimp only []
      rw [if_pos c1]
    rw [hfail] at hopen; simp at hopen
  obtain ⟨hl1, he1⟩ := not_or.mp c1
  have he1 : e1 = .XYZIMAGE_ERROR_OK := not_not.mp he1
  subst he1
  by_cases c2 : hdr ≠ XYZ1_MAGIC
  · have hfail : xyzimage_open zlib rf s isBig =
        (none, .XYZIMAGE_ERROR_IO_READ_BAD_HEADER) := by
      unfold xyzimage_open
      rw [h1]; dsimp only []
      rw [if_neg c1, if_pos c2]
    rw [hfail] at hopen; simp at hopen
  have c2 : hdr = XYZ1_MAGIC := not_not.mp c2
  subst c2
  rcases h2 : rf s1 2 with ⟨s2, wb, e2⟩
  by_cases c3 : wb.length ≠ 2 ∨ e2 ≠ .XYZIMAGE_ERROR_OK
  · have hfail : xyzimage_open zlib rf s isBig = (none, e2) := by
      unfold xyzimage_open
      rw [h1]; dsimp only []
      rw [if_neg c1, if_neg (by simp : ¬ XYZ1_MAGIC ≠ XYZ1_MAGIC)]
      rw [h2]; dsimp only []
      rw [if_pos c3]
    rw [hfail] at hopen; simp at hopen
  obtain ⟨hl2, he2⟩ := not_or.mp c3
  have he2 : e2 = .XYZIMAGE_ERROR_OK := not_not.mp he2
  subst he2
  have hl2 : wb.length = 2 := not_not.mp hl2
  rcases h3 : rf s2 2 with ⟨s3, hb, e3⟩
  by_cases c4 : hb.length ≠ 2 ∨ e3 ≠ .XYZIMAGE_ERROR_OK
  · have hfail : xyzimage_open zlib rf s isBig = (none, e3) := by
      unfold xyzimage_open
      rw [h1]; dsimp only []
      rw [if_neg c1, if_neg (by simp : ¬ XYZ1_MAGIC ≠ XYZ1_MAGIC)]
      rw [h2]; dsimp only []
      rw [if_neg c3]
      rw [h3]; dsimp only []
      rw [if_pos c4]
    rw [hfail] at hopen; simp at hopen
  obtain ⟨hl3, he3⟩ := not_or.mp c4
  have he3 : e3 = .XYZIMAGE_ERROR_OK := not_not.mp he3
  subst he3
  have hl3 : hb.length = 2 := not_not.mp hl3
  rw [xyzimage_open_unfold zlib rf s isBig s1 s2 s3 wb hb h1 h2 hl2 h3 hl3] at hopen
  dsimp only [] at hopen
  set width := xyzpriv_swap_when_big isBig (u16FromHostBytes isBig wb) with hWdef
  set height := xyzpriv_swap_when_big isBig (u16FromHostBytes isBig hb) with hHdef
  set rc := readCompressed rf s3 (XYZIMAGE_PALETTE_SIZE + width * height) with hrcdef
  by_cases c5 : rc.err ≠ .XYZIMAGE_ERROR_IO_READ_END_OF_FILE
  · rw [if_pos c5] at hopen
    by_cases c6 : rc.err = .XYZIMAGE_ERROR_OK
    · rw [if_pos c6] at hopen; simp at hopen
    · rw [if_neg c6] at hopen; simp at hopen
  · rw [if_neg c5] at hopen
    cases hun : zlib.uncompress (rc.buf.take rc.res)
        (XYZIMAGE_PALETTE_SIZE + width * height) with
    | none => rw [hun] at hopen; simp at hopen
    | some dec =>
      rw [hun] at hopen
      dsimp only [] at hopen
      by_cases c7 : dec.length ≠ XYZIMAGE_PALETTE_SIZE + width * height
      · rw [if_pos c7] at hopen; simp at hopen
      · rw [if_neg c7] at hopen
        have hdl : dec.length = XYZIMAGE_PALETTE_SIZE + width * height := not_not.mp c7
        rw [Prod.mk.injEq, Option.some.injEq] at hopen
        obtain ⟨hrec, -⟩ := hopen
        rw [← hrec]
        refine ⟨?_, ?_, rfl⟩
        · exact length_paletteFromBytes _ _
        · have h768 : XYZIMAGE_PALETTE_SIZE = 768 := rfl
          simp only [List.length_take, List.length_drop, hdl]
          omega

lemma xyzimage_write_fields {τ : Type} (wfn : WriteFunc τ) (t : τ) (isBig : Bool)
    (image : XYZImage) :
    ∃ image2, (xyzimage_write (some image) wfn t isBig).image = some image2 ∧
      image2.width = image.width ∧ image2.height = image.height ∧
      image2.palette = image.palette ∧ image2.data = image.data ∧
      image2.data_len = image.data_len := by
  unfold xyzimage_write
  dsimp only []
  by_cases hv : imgValid image = false
  · rw [if_pos hv]
    exact ⟨image, rfl, rfl, rfl, rfl, rfl, rfl⟩
  · rw [if_neg hv]
    cases hf : image.format with
    | XYZIMAGE_FORMAT_DEFAULT =>
      cases hp : writeCompressProto image.compress_func (writeInput image)
          (nominalSize image) with
      | error e0 => exact ⟨image, rfl, rfl, rfl, rfl, rfl, rfl⟩
      | ok cb =>
        dsimp only []
        by_cases hz : cb.length = 0
        · rw [if_pos hz]
          exact ⟨image, rfl, rfl, rfl, rfl, rfl, rfl⟩
        · rw [if_neg hz]
          rcases hW1 : wfn t XYZ1_MAGIC with ⟨t1, r1, e1⟩
          split
          · exact ⟨_, rfl, rfl, rfl, rfl, rfl, rfl⟩
          rcases hW2 : wfn t1 (u16ToHostBytes isBig (xyzpriv_swap_when_big isBig
            image.width)) with ⟨t2, r2, e2⟩
          split
          · exact ⟨_, rfl, rfl, rfl, rfl, rfl, rfl⟩
          rcases hW3 : wfn t2 (u16ToHostBytes isBig (xyzpriv_swap_when_big isBig
            image.height)) with ⟨t3, r3, e3⟩
          split
          · exact ⟨_, rfl, rfl, rfl, rfl, rfl, rfl⟩
          rcases hW4 : wfn t3 cb with ⟨t4, r4, e4⟩
          split
          · exact ⟨_, rfl, rfl, rfl, rfl, rfl, rfl⟩
          exact ⟨_, rfl, rfl, rfl, rfl, rfl, rfl⟩
    | XYZIMAGE_FORMAT_NONE => exact ⟨image, rfl, rfl, rfl, rfl, rfl, rfl⟩
    | XYZIMAGE_FORMAT_RGBX => exact ⟨image, rfl, rfl, rfl, rfl, rfl, rfl⟩

/-- C8: every handle constructed by xyzimage_alloc or by a successful
xyzimage_open satisfies the invariant (256 palette entries, pixel buffer of
exactly width * height bytes, stored length in agreement), and the public
mutating operations (xyzimage_set_compress_func, xyzimage_write) never
change width, height, palette, pixel buffer or its stored length. -/
theorem handle_invariants :
    (∀ (zlib : Zlib) (w h : Nat) (image : XYZImage) (e : XYZImage_Error),
      xyzimage_alloc zlib w h .XYZIMAGE_FORMAT_DEFAULT = (some image, e) →
      wfImage image ∧ image.width = w ∧ image.height = h) ∧
    (∀ (σ : Type) (zlib : Zlib) (rf : ReadFunc σ) (s : σ) (isBig : Bool)
      (image : XYZImage) (e : XYZImage_Error),
      xyzimage_open zlib rf s isBig = (some image, e) → wfImage image) ∧
    (∀ (zlib : Zlib) (image : XYZImage) (f : Option CompressFunc),
      ∃ image2, xyzimage_set_compress_func zlib (some image) f = some image2 ∧
        image2.width = image.width ∧ image2.height = image.height ∧
        image2.palette = image.palette ∧ image2.data = image.data ∧
        image2.data_len = image.data_len) ∧
    (∀ (τ : Type) (wfn : WriteFunc τ) (t : τ) (isBig : Bool) (image : XYZImage),
      ∃ image2, (xyzimage_write (some image) wfn t isBig).image = some image2 ∧
        image2.width = image.width ∧ image2.height = image.height ∧
        image2.palette = image.palette ∧ image2.data = image.data ∧
        image2.data_len = image.data_len) := by
  refine ⟨?_, ?_, ?_, ?_⟩
  · intro zlib w h image e halloc
    simp only [xyzimage_alloc, Prod.mk.injEq, Option.some.injEq] at halloc
    obtain ⟨hrec, -⟩ := halloc
    subst hrec
    exact ⟨⟨by simp, by simp, rfl⟩, rfl, rfl⟩
  · intro σ zlib rf s isBig image e hopen
    exact xyzimage_open_wf zlib rf s isBig image e hopen
  · intro zlib image f
    unfold xyzimage_set_compress_func
    dsimp only []
    by_cases hv : imgValid image = false
    · rw [if_pos hv]
      exact ⟨image, rfl, rfl, rfl, rfl, rfl, rfl⟩
    · rw [if_neg hv]
      cases f with
      | none => exact ⟨_, rfl, rfl, rfl, rfl, rfl, rfl⟩
      | some g => exact ⟨_, rfl, rfl, rfl, rfl, rfl, rfl⟩
  · intro τ wfn t isBig image
    exact xyzimage_write_fields wfn t isBig image

/-- Witness for C8: the blank 0x0 allocation satisfies the invariant and a
write on it leaves width, height, palette and pixel buffer unchanged. -/
theorem handle_invariants_witness :
    (wfImage testImage0 ∧ testImage0.width = 0 ∧ testImage0.height = 0) ∧
    (∃ image2,
      (xyzimage_write (some testImage0) listWrite [] false).image = some image2 ∧
      image2.width = testImage0.width ∧ image2.height = testImage0.height ∧
      image2.palette = testImage0.palette ∧ image2.data = testImage0.data ∧
      image2.data_len = testImage0.data_len) :=
  ⟨handle_invariants.1 storeZlib 0 0 testImage0 .XYZIMAGE_ERROR_OK rfl,
   handle_invariants.2.2.2 (List Nat) listWrite [] false testImage0⟩

/-- C1: for every valid handle (any width and height, including 0x0, any
palette and pixel content) whose compression protocol succeeds with a
nonempty result shorter than 2 * nominal that the zlib inverse restores to
the original payload, encoding with xyzimage_write and decoding the
produced byte stream with xyzimage_open yields a handle with identical
width, height, palette and pixel buffer. -/
theorem xyzimage_roundtrip (zlib : Zlib) (isBig : Bool) (image : XYZImage)
    (cbytes : List Nat)
    (hw : image.width < 65536) (hh : image.height < 65536)
    (hvalid : imgValid image = true) (hfmt : image.format = .XYZIMAGE_FORMAT_DEFAULT)
    (hwf : wfImage image)
    (hc : writeCompressProto image.compress_func (writeInput image) (nominalSize image) =
      .ok cbytes)
    (hne : cbytes ≠ [])
    (hcap : cbytes.length < 2 * (768 + image.width * image.height))
    (hun : zlib.uncompress cbytes (768 + image.width * image.height) =
      some (writeInput image)) :
    (xyzimage_write (some image) listWrite [] isBig).ret = 1 ∧
    ∃ image2,
      xyzimage_open zlib fileRead
        ((xyzimage_write (some image) listWrite [] isBig).sink, 0) isBig =
        (some image2, .XYZIMAGE_ERROR_OK) ∧
      image2.width = image.width ∧ image2.height = image.height ∧
      image2.palette = image.palette ∧ image2.data = image.data := by
  obtain ⟨hwfp, hwfd, hwfl⟩ := hwf
  rw [xyzimage_write_listWrite isBig image cbytes [] hvalid hfmt hc hne]
  refine ⟨rfl, ?_⟩
  dsimp only []
  rw [u16_wire_bytes isBig image.width hw, u16_wire_bytes isBig image.height hh,
    List.nil_append]
  set stream := XYZ1_MAGIC ++ ([image.width % 256, image.width / 256] ++
    ([image.height % 256, image.height / 256] ++ cbytes)) with hstream
  have h1 : fileRead (stream, 0) 4 = ((stream, 4), XYZ1_MAGIC, .XYZIMAGE_ERROR_OK) := by
    rw [hstream]; rfl
  have h2 : fileRead (stream, 4) 2 =
      ((stream, 6), [image.width % 256, image.width / 256], .XYZIMAGE_ERROR_OK) := by
    rw [hstream]; rfl
  have h3 : fileRead (stream, 6) 2 =
      ((stream, 8), [image.height % 256, image.height / 256], .XYZIMAGE_ERROR_OK) := by
    rw [hstream]; rfl
  rw [xyzimage_open_unfold zlib fileRead (stream, 0) isBig (stream, 4) (stream, 6)
    (stream, 8) [image.width % 256, image.width / 256]
    [image.height % 256, image.height / 256] h1 h2 (by simp) h3 (by simp)]
  dsimp only []
  rw [u16_parse_bytes isBig image.width hw, u16_parse_bytes isBig image.height hh]
  have h768 : XYZIMAGE_PALETTE_SIZE = 768 := rfl
  simp only [h768]
  have hdrop8 : stream.drop 8 = cbytes := by rw [hstream]; rfl
  have hrc := readCompressed_fileRead stream 8 (768 + image.width * image.height)
    (by rw [hdrop8]; exact hcap)
  rw [hrc]
  dsimp only []
  simp only [List.take_length, hdrop8, hun]
  have hwl : (writeInput image).length = 768 + image.width * image.height := by
    simp [writeInput, length_paletteToBytes, XYZIMAGE_PALETTE_ENTRIES, List.length_take,
      hwfl, hwfd]
  simp only [hwl]
  simp only [ne_eq, not_true_eq_false, if_false, reduceIte]
  refine ⟨⟨LXYZ_MAGIC, 1, image.width, image.height, .XYZIMAGE_FORMAT_DEFAULT,
    paletteFromBytes XYZIMAGE_PALETTE_ENTRIES (writeInput image),
    image.width * image.height, cbytes.length,
    ((writeInput image).drop 768).take (image.width * image.height),
    xyzpriv_compress_func zlib⟩, rfl, rfl, rfl, ?_, ?_⟩
  · exact paletteFromBytes_toBytes XYZIMAGE_PALETTE_ENTRIES image.palette _ hwfp
  · have hp768 : (paletteToBytes XYZIMAGE_PALETTE_ENTRIES image.palette).length = 768 := by
      rw [length_paletteToBytes]; rfl
    show ((paletteToBytes XYZIMAGE_PALETTE_ENTRIES image.palette ++
        image.data.take image.data_len).drop 768).take (image.width * image.height) =
      image.data
    rw [← hp768, List.drop_left]
    have hdl : image.data_len = image.data.length := by rw [hwfl, ← hwfd]
    rw [hdl, List.take_length, ← hwfd, List.take_length]

/-- The concrete 2x2 scenario of the spec: every pixel index 5 and palette
entry 5 = (10,20,30), under the store codec. -/
def img2x2 : XYZImage :=
  { header := LXYZ_MAGIC, version := 1, width := 2, height := 2,
    format := .XYZIMAGE_FORMAT_DEFAULT,
    palette := (List.replicate 256 (0, 0, 0)).set 5 (10, 20, 30),
    data_len := 4, data_len_compressed := 0, data := [5, 5, 5, 5],
    compress_func := xyzpriv_compress_func storeZlib }

set_option maxRecDepth 100000 in
/-- Witness for C1: the 2x2 image with every pixel index 5 and palette entry
5 = (10,20,30) encodes and decodes back to width 2, height 2, pixel buffer
5,5,5,5 and palette entry 5 = (10,20,30). -/
theorem xyzimage_roundtrip_witness :
    (xyzimage_write (some img2x2) listWrite [] false).ret = 1 ∧
    ∃ image2,
      xyzimage_open storeZlib fileRead
        ((xyzimage_write (some img2x2) listWrite [] false).sink, 0) false =
        (some image2, .XYZIMAGE_ERROR_OK) ∧
      image2.width = 2 ∧ image2.height = 2 ∧ image2.data = [5, 5, 5, 5] ∧
      image2.palette.getD 5 (0, 0, 0) = (10, 20, 30) := by
  have hlen : (writeInput img2x2).length = 772 := rfl
  have hne : writeInput img2x2 ≠ [] := by
    intro hcon
    rw [hcon] at hlen
    simp at hlen
  have hcap : (writeInput img2x2).length < 2 * (768 + img2x2.width * img2x2.height) := by
    rw [hlen]; decide
  obtain ⟨hret, image2, hopen, hwidth, hheight, hpal, hdata⟩ :=
    xyzimage_roundtrip storeZlib false img2x2 (writeInput img2x2)
      (by decide) (by decide) (by decide) rfl ⟨by decide, by decide, by decide⟩ rfl
      hne hcap rfl
  exact ⟨hret, image2, hopen, by rw [hwidth]; rfl, by rw [hheight]; rfl,
    by rw [hdata]; rfl, by rw [hpal]; decide⟩
